import Mathlib

/-
  Verification development for the Safe Ride backend (`src/server.js`, with a
  further revision in `src/unnamed/part_000`).

  The file shallowly embeds the ride-lifecycle and fare-estimation core:
  * `haversineDistance` — the `haversineDistance` function, over ℝ
    (JS floating-point trigonometry is modelled by exact real arithmetic);
  * `round2`, `quoteFare`, `bookingFare`, `estimate` — the two inline fare
    formulas `parseFloat((5 + 2*d).toFixed(2))` (quote endpoint) and
    `parseFloat(((5 + 2*d)*12).toFixed(2))` (booking endpoint); JS numbers
    carried through the store model are embedded as ℚ, and `toFixed(2)`
    followed by `parseFloat` is embedded as rounding to an integer number of
    hundredths with ties going up (the ECMA-262 `toFixed` tie rule);
  * `Ride`, `insertRide`, `acceptUpdate`, `acceptRide`, `requestRideV1`,
    `requestRideV2`, `fareQuoteV1`, `fareQuoteV2`, `historyV1`, `historyV2` —
    the SQL-backed endpoint handlers, with the rides table embedded as a
    `List Ride` in insertion order and `socket.io` emissions embedded as an
    explicit event list.  `V1` refers to the first revision of `server.js`
    (lines 1–204), `V2` to the second revision (lines 205–454); the third
    revision (lines 455–701) has the same control flow as `V1` for geocoding
    failures and the same `ORDER BY`/`updated_at` behaviour as `V2`.
  The external geocoder (Mapbox) is embedded as a `GeoResult` argument: the
  behaviour of a handler is a function of the answer of the provider.
-/

namespace SafeRide

/-! ## Geographic distance (`haversineDistance`, server.js lines 30–38) -/

/-- `toRad = deg => (deg * Math.PI) / 180`. -/
noncomputable def toRad (deg : ℝ) : ℝ := deg * Real.pi / 180

/-- JS `Math.atan2 (y, x)`, by quadrant.  Only the `0 < x` branch is ever
reached by the haversine formula on the zero-distance inputs evaluated in this
file, but the full case split mirrors the JS builtin. -/
noncomputable def atan2 (y x : ℝ) : ℝ :=
  if 0 < x then Real.arctan (y / x)
  else if x = 0 ∧ 0 < y then Real.pi / 2
  else if x = 0 ∧ y < 0 then -(Real.pi / 2)
  else if x < 0 ∧ 0 ≤ y then Real.arctan (y / x) + Real.pi
  else if x < 0 ∧ y < 0 then Real.arctan (y / x) - Real.pi
  else 0

/-- The intermediate `a` of `haversineDistance`:
`sin(dLat/2)**2 + cos(toRad lat1) * cos(toRad lat2) * sin(dLon/2)**2`. -/
noncomputable def hav_a (lon1 lat1 lon2 lat2 : ℝ) : ℝ :=
  Real.sin (toRad (lat2 - lat1) / 2) ^ 2 +
    Real.cos (toRad lat1) * Real.cos (toRad lat2) * Real.sin (toRad (lon2 - lon1) / 2) ^ 2

/-- `haversineDistance([lon1, lat1], [lon2, lat2])`:
`R * c` with `R = 6371` and `c = 2 * atan2(sqrt a, sqrt (1 - a))`. -/
noncomputable def haversineDistance (lon1 lat1 lon2 lat2 : ℝ) : ℝ :=
  6371 * (2 * atan2 (Real.sqrt (hav_a lon1 lat1 lon2 lat2))
                    (Real.sqrt (1 - hav_a lon1 lat1 lon2 lat2)))

theorem atan2_zero_one : atan2 0 1 = 0 := by
  unfold atan2
  rw [if_pos (by norm_num : (0:ℝ) < 1)]
  simp

theorem hav_a_symm (lon1 lat1 lon2 lat2 : ℝ) :
    hav_a lon2 lat2 lon1 lat1 = hav_a lon1 lat1 lon2 lat2 := by
  unfold hav_a toRad
  have hsin : ∀ u v : ℝ, Real.sin ((u - v) * Real.pi / 180 / 2) ^ 2
      = Real.sin ((v - u) * Real.pi / 180 / 2) ^ 2 := by
    intro u v
    have h : (u - v) * Real.pi / 180 / 2 = -((v - u) * Real.pi / 180 / 2) := by ring
    rw [h, Real.sin_neg]
    ring
  rw [hsin lat1 lat2, hsin lon1 lon2]
  ring

theorem hav_a_self (lon lat : ℝ) : hav_a lon lat lon lat = 0 := by
  unfold hav_a toRad
  simp

theorem haversineDistance_symm (lon1 lat1 lon2 lat2 : ℝ) :
    haversineDistance lon1 lat1 lon2 lat2 = haversineDistance lon2 lat2 lon1 lat1 := by
  unfold haversineDistance
  rw [hav_a_symm lon1 lat1 lon2 lat2]

theorem haversineDistance_self (lon lat : ℝ) : haversineDistance lon lat lon lat = 0 := by
  unfold haversineDistance
  rw [hav_a_self, Real.sqrt_zero]
  norm_num [atan2_zero_one]

/-- `hav_a` vanishes at the north pole even between distinct longitudes:
`cos (toRad 90) = cos (π/2) = 0` kills the longitude term. -/
theorem hav_a_pole : hav_a 0 90 10 90 = 0 := by
  unfold hav_a toRad
  have h90 : (90:ℝ) * Real.pi / 180 = Real.pi / 2 := by ring
  rw [h90, Real.cos_pi_div_two]
  simp

theorem haversineDistance_pole : haversineDistance 0 90 10 90 = 0 := by
  unfold haversineDistance
  rw [hav_a_pole, Real.sqrt_zero]
  norm_num [atan2_zero_one]

/-! ## Fare formulas (server.js lines 100, 114, 302, 323, 548, 568) -/

/-- `parseFloat(x.toFixed(2))`: round to hundredths.  Mathlib `round` is
`⌊x + 1/2⌋`, i.e. ties go up, which is exactly the ECMA-262 `toFixed` tie
rule ("if there are two such n, pick the larger n"). -/
def round2 {α : Type} [LinearOrderedField α] [FloorRing α] (x : α) : α :=
  ((round (x * 100) : ℤ) : α) / 100

/-- Quote-endpoint fare: `parseFloat((5 + 2 * distance).toFixed(2))`. -/
def quoteFare {α : Type} [LinearOrderedField α] [FloorRing α] (d : α) : α :=
  round2 (5 + 2 * d)

/-- Booking-endpoint fare: `parseFloat(((5 + 2 * distance) * 12).toFixed(2))`
(the comment in the source reads "Fare in GHS"). -/
def bookingFare {α : Type} [LinearOrderedField α] [FloorRing α] (d : α) : α :=
  round2 ((5 + 2 * d) * 12)

/-- The two pricing configurations that occur in the source: the quote
endpoint uses base 5, perKm 2 and no currency multiplier; the booking
endpoint multiplies the same subtotal by 12. -/
inductive PricingModel
  | quote
  | booking
deriving DecidableEq, Repr

def PricingModel.base : PricingModel → ℚ := fun _ => 5

def PricingModel.perKm : PricingModel → ℚ := fun _ => 2

def PricingModel.currencyMultiplier : PricingModel → ℚ
  | .quote => 1
  | .booking => 12

/-- The shared shape of both inline fare formulas:
`(base + perKm * d) * currencyMultiplier`, rounded to 2 decimal places. -/
def estimate (p : PricingModel) (d : ℚ) : ℚ :=
  round2 ((p.base + p.perKm * d) * p.currencyMultiplier)

theorem estimate_quote_eq (d : ℚ) : estimate .quote d = quoteFare d := by
  simp [estimate, quoteFare, PricingModel.base, PricingModel.perKm,
    PricingModel.currencyMultiplier]

theorem estimate_booking_eq (d : ℚ) : estimate .booking d = bookingFare d := by
  simp [estimate, bookingFare, PricingModel.base, PricingModel.perKm,
    PricingModel.currencyMultiplier]

theorem round_mono {α : Type} [LinearOrderedField α] [FloorRing α]
    {x y : α} (h : x ≤ y) : round x ≤ round y := by
  rw [round_eq, round_eq]
  exact Int.floor_le_floor (by linarith)

theorem round2_mono {α : Type} [LinearOrderedField α] [FloorRing α]
    {x y : α} (h : x ≤ y) : round2 x ≤ round2 y := by
  unfold round2
  have h1 : round (x * 100) ≤ round (y * 100) := round_mono (by linarith)
  have h2 : ((round (x * 100) : ℤ) : α) ≤ ((round (y * 100) : ℤ) : α) :=
    Int.cast_le.mpr h1
  have h100 : (0:α) ≤ 100 := by norm_num
  exact div_le_div_of_nonneg_right h2 h100

/-- The rounding the spec describes: 2 decimal places, ties away from zero. -/
def roundHalfAwayFromZero (x : ℚ) : ℤ :=
  if 0 ≤ x then ⌊x + 1 / 2⌋ else ⌈x - 1 / 2⌉

/-- Spec-worded rounding to hundredths, for comparison with `round2`. -/
def round2SpecHalfAway (x : ℚ) : ℚ :=
  ((roundHalfAwayFromZero (x * 100) : ℤ) : ℚ) / 100

theorem round2_eq_spec_of_nonneg {x : ℚ} (hx : 0 ≤ x) :
    round2 x = round2SpecHalfAway x := by
  unfold round2 round2SpecHalfAway roundHalfAwayFromZero
  rw [round_eq, if_pos (by positivity : (0:ℚ) ≤ x * 100)]

/-! ## The rides store and the endpoint handlers

The Postgres `rides` table is embedded as a `List Ride` in insertion order
(`INSERT` appends; `SERIAL` ids are assigned as `length + 1`).  JSON numbers
are embedded as ℚ.  `socket.io` `io.emit` calls are embedded as an explicit
list of emitted events.  The Mapbox geocoder is embedded as a `GeoResult`
argument and the numeric distance the floating-point haversine produces for
the resolved coordinates is abstracted as a `distFn` argument, so that the
(noncomputable, real-valued) trigonometry does not enter the store model. -/

inductive RideStatus
  | requested
  | accepted
deriving DecidableEq, Repr

/-- A `{lng, lat}` coordinate pair as stored in the `rides` JSONB columns. -/
structure Coord where
  lng : ℚ
  lat : ℚ
deriving DecidableEq, Repr

/-- One row of the `rides` table (the columns the core touches). -/
structure Ride where
  id : Nat
  riderId : Nat
  driverId : Option Nat
  pickup : Coord
  dropoff : Coord
  fare : ℚ
  status : RideStatus
  requestedAt : Nat
  updatedAt : Nat
deriving DecidableEq, Repr

/-- The answer of the external geocoder for the dropoff text: a highest-ranked
match `[lng, lat]`, an empty `features` list, or a network/provider error. -/
inductive GeoResult
  | found (c : Coord)
  | empty
  | error
deriving DecidableEq, Repr

/-- Events emitted through `io.emit` by the ride endpoints. -/
inductive Event
  | rideRequested (r : Ride)
  | rideAccepted (rideId driverId : Nat)
deriving DecidableEq, Repr

/-- An HTTP error reply `res.status(s).json({ error: msg })`. -/
structure ErrResp where
  status : Nat
  error : String
deriving DecidableEq, Repr

/-- Reply of `POST /api/rides/request`: the inserted row, or an error. -/
inductive ReqResult
  | ok (r : Ride)
  | err (e : ErrResp)
deriving DecidableEq, Repr

/-- Reply of `POST /api/rides/fare`: `{distance_km, estimated_fare,
dropoff_coords}`, or an error. -/
inductive FareResult
  | ok (distanceKm fare : ℚ) (dropoffCoords : Coord)
  | err (e : ErrResp)
deriving DecidableEq, Repr

/-- Reply of `POST /api/rides/accept`: the handler answers
`res.json({ success: true })` (status 200) on every path that reaches the
`UPDATE`. -/
structure AcceptResp where
  status : Nat
  success : Bool
deriving DecidableEq, Repr

/-- `INSERT INTO rides (rider_id, pickup_coords, dropoff_coords, fare, status)
VALUES (..., requested) RETURNING *`: appends a row with a fresh serial id,
status `requested`, no driver, and `requested_at`/`updated_at` set to now. -/
def insertRide (riderId : Nat) (pickup dropoff : Coord) (fare : ℚ) (now : Nat)
    (st : List Ride) : Ride × List Ride :=
  let r : Ride :=
    { id := st.length + 1, riderId := riderId, driverId := none,
      pickup := pickup, dropoff := dropoff, fare := fare,
      status := .requested, requestedAt := now, updatedAt := now }
  (r, st ++ [r])

/-- `UPDATE rides SET driver_id = $1, status = accepted, updated_at = NOW()
WHERE id = $2`: the update is unconditional on the current status and
driver. -/
def acceptUpdate (driverId rideId now : Nat) (st : List Ride) : List Ride :=
  st.map fun r =>
    if r.id = rideId then
      { r with driverId := some driverId, status := .accepted, updatedAt := now }
    else r

/-- `POST /api/rides/accept` (server.js lines 128–137, 346–361, 595–610): run
the unconditional `UPDATE`, emit `ride_accepted`, reply `{success: true}`.
There is no existence check, no status check, and no rows-affected check. -/
def acceptRide (driverId rideId now : Nat) (st : List Ride) :
    AcceptResp × List Ride × List Event :=
  (⟨200, true⟩, acceptUpdate driverId rideId now st, [.rideAccepted rideId driverId])

/-- `POST /api/rides/request`, second revision (server.js lines 311–343):
an empty geocoder `features` list is answered with 422 before any insert; a
provider error is caught as 500; otherwise the ride is inserted and
`ride_requested` emitted. -/
def requestRideV2 (distFn : Coord → Coord → ℚ) (riderId : Nat) (pickup : Coord)
    (g : GeoResult) (now : Nat) (st : List Ride) :
    ReqResult × List Ride × List Event :=
  match g with
  | .empty => (.err ⟨422, "Dropoff not found"⟩, st, [])
  | .error => (.err ⟨500, "Ride request failed"⟩, st, [])
  | .found c =>
    let fare := estimate .booking (distFn pickup c)
    let ins := insertRide riderId pickup c fare now st
    (.ok ins.1, ins.2, [.rideRequested ins.1])

/-- `POST /api/rides/request`, first revision (server.js lines 108–125): an
empty `features` list makes `features[0].center` throw, so it lands in the
same catch as a provider error and is answered with the generic 500; no
insert or emit happens on either failure. -/
def requestRideV1 (distFn : Coord → Coord → ℚ) (riderId : Nat) (pickup : Coord)
    (g : GeoResult) (now : Nat) (st : List Ride) :
    ReqResult × List Ride × List Event :=
  match g with
  | .empty => (.err ⟨500, "Ride request failed"⟩, st, [])
  | .error => (.err ⟨500, "Ride request failed"⟩, st, [])
  | .found c =>
    let fare := estimate .booking (distFn pickup c)
    let ins := insertRide riderId pickup c fare now st
    (.ok ins.1, ins.2, [.rideRequested ins.1])

/-- `POST /api/rides/fare`, second revision (server.js lines 290–308): 422 on
an empty match list, 500 on a provider error, otherwise the quote. -/
def fareQuoteV2 (distFn : Coord → Coord → ℚ) (pickup : Coord) (g : GeoResult) :
    FareResult :=
  match g with
  | .empty => .err ⟨422, "Dropoff not found"⟩
  | .error => .err ⟨500, "Fare calculation failed"⟩
  | .found c => .ok (distFn pickup c) (estimate .quote (distFn pickup c)) c

/-- `POST /api/rides/fare`, first revision (server.js lines 94–105): an empty
match list makes `features[0].center` throw, so both it and a provider error
are answered with the generic 500 from the catch block. -/
def fareQuoteV1 (distFn : Coord → Coord → ℚ) (pickup : Coord) (g : GeoResult) :
    FareResult :=
  match g with
  | .empty => .err ⟨500, "Fare calculation failed"⟩
  | .error => .err ⟨500, "Fare calculation failed"⟩
  | .found c => .ok (distFn pickup c) (estimate .quote (distFn pickup c)) c

/-! ## History (`GET /api/rides/history`) -/

/-- `const col = req.user.role === driver ? driver_id : rider_id`
followed by `WHERE col = $1`.  The token role is optional (a JWT payload may
lack the field); SQL `driver_id = id` is false on a NULL `driver_id`. -/
def roleFilter (uid : Nat) (role : Option String) (r : Ride) : Bool :=
  if role = some "driver" then decide (r.driverId = some uid)
  else decide (r.riderId = uid)

/-- First revision (server.js lines 140–148): `SELECT * FROM rides WHERE
col = $1` with no `ORDER BY` — rows come back in insertion order. -/
def historyV1 (uid : Nat) (role : Option String) (st : List Ride) : List Ride :=
  st.filter (roleFilter uid role)

/-- Insert a ride into a list kept in non-increasing `requestedAt` order. -/
def insertDesc (r : Ride) : List Ride → List Ride
  | [] => [r]
  | x :: xs => if x.requestedAt ≤ r.requestedAt then r :: x :: xs
               else x :: insertDesc r xs

/-- Sort by `requested_at DESC` (insertion sort). -/
def sortDesc : List Ride → List Ride
  | [] => []
  | x :: xs => insertDesc x (sortDesc xs)

/-- Second and third revisions (server.js lines 364–376, 613–625):
`SELECT * FROM rides WHERE col = $1 ORDER BY requested_at DESC`. -/
def historyV2 (uid : Nat) (role : Option String) (st : List Ride) : List Ride :=
  sortDesc (st.filter (roleFilter uid role))

/-- Newest `requestedAt` first. -/
def SortedByRequestedAtDesc (l : List Ride) : Prop :=
  List.Pairwise (fun a b => b.requestedAt ≤ a.requestedAt) l

instance (l : List Ride) : Decidable (SortedByRequestedAtDesc l) := by
  unfold SortedByRequestedAtDesc
  infer_instance

/-! ## Sequences of ride operations (for the lifecycle invariants) -/

/-- One store-mutating call of the ride lifecycle: a successful
`POST /api/rides/request` (with `fare` the value the handler computed from
the geocoded distance) or a `POST /api/rides/accept`. -/
inductive Op
  | request (riderId : Nat) (pickup dropoff : Coord) (fare : ℚ) (now : Nat)
  | accept (driverId rideId now : Nat)
deriving DecidableEq, Repr

/-- Effect of one operation on the rides table. -/
def applyOp (st : List Ride) : Op → List Ride
  | .request riderId pickup dropoff fare now =>
    (insertRide riderId pickup dropoff fare now st).2
  | .accept driverId rideId now => acceptUpdate driverId rideId now st

/-- Run a sequence of operations against the empty table. -/
def run (ops : List Op) : List Ride := ops.foldl applyOp []

/-! ## Lemmas about the descending sort -/

theorem mem_insertDesc {a r : Ride} : ∀ {l : List Ride},
    a ∈ insertDesc r l ↔ a = r ∨ a ∈ l := by
  intro l
  induction l with
  | nil => simp [insertDesc]
  | cons x xs ih =>
    by_cases h : x.requestedAt ≤ r.requestedAt
    · simp [insertDesc, h]
    · simp [insertDesc, h, ih]
      tauto

theorem mem_sortDesc {a : Ride} : ∀ {l : List Ride}, a ∈ sortDesc l ↔ a ∈ l := by
  intro l
  induction l with
  | nil => simp [sortDesc]
  | cons x xs ih => simp [sortDesc, mem_insertDesc, ih]

theorem sorted_insertDesc {r : Ride} : ∀ {l : List Ride},
    SortedByRequestedAtDesc l → SortedByRequestedAtDesc (insertDesc r l) := by
  intro l
  induction l with
  | nil => intro _; simp [insertDesc, SortedByRequestedAtDesc]
  | cons x xs ih =>
    intro h
    unfold SortedByRequestedAtDesc at h
    rw [List.pairwise_cons] at h
    by_cases hx : x.requestedAt ≤ r.requestedAt
    · unfold insertDesc SortedByRequestedAtDesc
      rw [if_pos hx]
      rw [List.pairwise_cons]
      constructor
      · intro b hb
        rcases List.mem_cons.mp hb with hb | hb
        · exact hb ▸ hx
        · exact le_trans (h.1 b hb) hx
      · rw [List.pairwise_cons]
        exact h
    · unfold insertDesc SortedByRequestedAtDesc
      rw [if_neg hx]
      rw [List.pairwise_cons]
      constructor
      · intro b hb
        rcases mem_insertDesc.mp hb with hb | hb
        · exact hb ▸ le_of_lt (lt_of_not_le hx)
        · exact h.1 b hb
      · exact ih h.2

theorem sorted_sortDesc : ∀ (l : List Ride), SortedByRequestedAtDesc (sortDesc l) := by
  intro l
  induction l with
  | nil => simp [sortDesc, SortedByRequestedAtDesc]
  | cons x xs ih => exact sorted_insertDesc ih

/-! ## Lemmas about reachable store states

`StoreInv` is the inductive invariant of the rides table: serial ids are
positional (`st[i].id = i + 1`, so ids are distinct and at most the length)
and a driver is recorded exactly on accepted rides. -/

def DriverIffAccepted (st : List Ride) : Prop :=
  ∀ r ∈ st, (r.driverId = none ↔ r.status = .requested)

def IdsPositional (st : List Ride) : Prop :=
  ∀ i (h : i < st.length), (st.get ⟨i, h⟩).id = i + 1

def StoreInv (st : List Ride) : Prop := DriverIffAccepted st ∧ IdsPositional st

theorem idsPositional_id_le {st : List Ride} (hst : IdsPositional st)
    {r : Ride} (hr : r ∈ st) : r.id ≤ st.length := by
  rcases List.mem_iff_get.mp hr with ⟨i, rfl⟩
  have h1 : (st.get i).id = i.1 + 1 := hst i.1 i.2
  have h2 : i.1 < st.length := i.2
  omega

theorem idsPositional_inj {st : List Ride} (hst : IdsPositional st)
    {r s : Ride} (hr : r ∈ st) (hs : s ∈ st) (hid : r.id = s.id) : r = s := by
  rcases List.mem_iff_get.mp hr with ⟨i, rfl⟩
  rcases List.mem_iff_get.mp hs with ⟨j, rfl⟩
  have h1 : (st.get i).id = i.1 + 1 := hst i.1 i.2
  have h2 : (st.get j).id = j.1 + 1 := hst j.1 j.2
  have hij : i.1 = j.1 := by omega
  congr 1
  exact Fin.ext hij

theorem storeInv_applyOp {st : List Ride} (h : StoreInv st) (op : Op) :
    StoreInv (applyOp st op) := by
  obtain ⟨hDrv, hIds⟩ := h
  cases op with
  | request riderId pickup dropoff fare now =>
    constructor
    · intro r hr
      simp only [applyOp, insertRide, List.mem_append, List.mem_singleton] at hr
      rcases hr with hr | rfl
      · exact hDrv r hr
      · simp
    · intro i hi
      have hlen : (applyOp st (Op.request riderId pickup dropoff fare now)).length
          = st.length + 1 := by
        simp [applyOp, insertRide]
      rw [List.get_eq_getElem]
      by_cases hlt : i < st.length
      · have : (applyOp st (Op.request riderId pickup dropoff fare now))[i]
            = st[i] := by
          simp only [applyOp, insertRide]
          exact List.getElem_append_left hlt
        rw [this]
        have := hIds i hlt
        rw [List.get_eq_getElem] at this
        exact this
      · have hieq : i = st.length := by omega
        subst hieq
        simp [applyOp, insertRide]
  | accept driverId rideId now =>
    constructor
    · intro r hr
      simp only [applyOp, acceptUpdate, List.mem_map] at hr
      rcases hr with ⟨s, hs, rfl⟩
      by_cases hid : s.id = rideId
      · simp [hid]
      · simpa [hid] using hDrv s hs
    · intro i hi
      have hi2 : i < st.length := by
        simpa [applyOp, acceptUpdate] using hi
      have hbase := hIds i hi2
      rw [List.get_eq_getElem] at hbase
      rw [List.get_eq_getElem]
      simp only [applyOp, acceptUpdate, List.getElem_map]
      by_cases hid : st[i].id = rideId
      · simpa [hid] using hbase
      · simpa [hid] using hbase

theorem storeInv_foldl : ∀ (ops : List Op) {st : List Ride},
    StoreInv st → StoreInv (ops.foldl applyOp st) := by
  intro ops
  induction ops with
  | nil => intro st h; simpa using h
  | cons op ops ih =>
    intro st h
    exact ih (storeInv_applyOp h op)

theorem storeInv_nil : StoreInv ([] : List Ride) := by
  constructor
  · intro r hr; cases hr
  · intro i hi; cases hi

theorem storeInv_run (ops : List Op) : StoreInv (run ops) :=
  storeInv_foldl ops storeInv_nil

/-- On a state with positional ids, one operation never takes a ride back
from `accepted`: the row with the same id after the step is still accepted. -/
theorem accepted_persists {st : List Ride} (h : StoreInv st) (op : Op)
    {r : Ride} (hr : r ∈ st) (hacc : r.status = .accepted)
    {s : Ride} (hs : s ∈ applyOp st op) (hid : s.id = r.id) :
    s.status = .accepted := by
  obtain ⟨hDrv, hIds⟩ := h
  cases op with
  | request riderId pickup dropoff fare now =>
    simp only [applyOp, insertRide, List.mem_append, List.mem_singleton] at hs
    rcases hs with hs | rfl
    · exact idsPositional_inj hIds hs hr hid ▸ hacc
    · exfalso
      have := idsPositional_id_le hIds hr
      simp only at hid
      omega
  | accept driverId rideId now =>
    simp only [applyOp, acceptUpdate, List.mem_map] at hs
    rcases hs with ⟨t, ht, rfl⟩
    by_cases hmatch : t.id = rideId
    · simp [hmatch]
    · simp only [hmatch, if_neg, ite_false] at hid ⊢
      exact idsPositional_inj hIds ht hr hid ▸ hacc

/-! ## Lemmas about history -/

theorem roleFilter_driver (uid : Nat) (r : Ride) :
    roleFilter uid (some "driver") r = decide (r.driverId = some uid) := by
  simp [roleFilter]

theorem roleFilter_nondriver {role : Option String} (h : role ≠ some "driver")
    (uid : Nat) (r : Ride) :
    roleFilter uid role r = decide (r.riderId = uid) := by
  simp [roleFilter, h]

theorem mem_historyV1_iff (uid : Nat) (role : Option String) (st : List Ride)
    (r : Ride) :
    r ∈ historyV1 uid role st ↔ r ∈ st ∧ roleFilter uid role r = true := by
  simp [historyV1, List.mem_filter]

theorem mem_historyV2_iff (uid : Nat) (role : Option String) (st : List Ride)
    (r : Ride) :
    r ∈ historyV2 uid role st ↔ r ∈ st ∧ roleFilter uid role r = true := by
  rw [historyV2, mem_sortDesc]
  simp [List.mem_filter]

theorem sorted_historyV2 (uid : Nat) (role : Option String) (st : List Ride) :
    SortedByRequestedAtDesc (historyV2 uid role st) :=
  sorted_sortDesc _

/-! ## Concrete records used by witnesses and counterexamples -/

/-- A freshly requested ride (id 1, rider 5), as `requestRide` creates it. -/
def rideReq1 : Ride :=
  { id := 1, riderId := 5, driverId := none, pickup := ⟨0, 0⟩, dropoff := ⟨1, 1⟩,
    fare := 60, status := .requested, requestedAt := 1, updatedAt := 1 }

/-- The older ride of rider 1 (requested at time 1). -/
def rideOld : Ride :=
  { id := 1, riderId := 1, driverId := none, pickup := ⟨0, 0⟩, dropoff := ⟨1, 1⟩,
    fare := 60, status := .requested, requestedAt := 1, updatedAt := 1 }

/-- The newer ride of rider 1 (requested at time 2). -/
def rideNew : Ride :=
  { id := 2, riderId := 1, driverId := none, pickup := ⟨0, 0⟩, dropoff := ⟨2, 2⟩,
    fare := 84, status := .requested, requestedAt := 2, updatedAt := 2 }

/-- Request one ride, then have driver 3 accept it. -/
def opsReqAccept : List Op := [.request 7 ⟨0, 0⟩ ⟨1, 1⟩ 60 1, .accept 3 1 2]

/-- The ride produced by `opsReqAccept`. -/
def rideReqAccept : Ride :=
  { id := 1, riderId := 7, driverId := some 3, pickup := ⟨0, 0⟩, dropoff := ⟨1, 1⟩,
    fare := 60, status := .accepted, requestedAt := 1, updatedAt := 2 }

/-! ## Claims -/

/-- Claim C1, counterexample.  Start from the reachable store holding the
single requested ride of `run [.request 5 .. 1]` (id 1).  Accepting a missing
ride id (99) still answers `{success: true}` rather than 404; two successive
accepts of ride 1 by drivers 2 and 4 both answer `{success: true}` rather
than one of them getting 409, and the final stored record carries the second
id of the second driver — the claim of the first driver was silently overwritten. -/
theorem C1_counterexample :
    (acceptRide 2 99 2 (run [.request 5 ⟨0, 0⟩ ⟨1, 1⟩ 60 1])).1 = ⟨200, true⟩ ∧
    (acceptRide 2 1 2 (run [.request 5 ⟨0, 0⟩ ⟨1, 1⟩ 60 1])).1 = ⟨200, true⟩ ∧
    (acceptRide 4 1 3
      ((acceptRide 2 1 2 (run [.request 5 ⟨0, 0⟩ ⟨1, 1⟩ 60 1])).2.1)).1 = ⟨200, true⟩ ∧
    ((acceptRide 4 1 3
      ((acceptRide 2 1 2 (run [.request 5 ⟨0, 0⟩ ⟨1, 1⟩ 60 1])).2.1)).2.1).map
        Ride.driverId = [some 4] := by
  decide

/-- Claim C1 (amended): `acceptRide` performs no lookup and no status or
driver check.  It always answers `{success: true}` (HTTP 200) and always
emits `ride_accepted`; when no ride has the given id the store is unchanged
(and the reply is still a success, not a 404); every ride with the given id —
whatever its status and even if a driver is already set — gets its
`driver_id` overwritten and its status set to `accepted`; rides with other
ids are untouched. -/
theorem C1_accept_unconditional (d rid now : Nat) (st : List Ride) :
    (acceptRide d rid now st).1 = ⟨200, true⟩ ∧
    (acceptRide d rid now st).2.2 = [.rideAccepted rid d] ∧
    ((∀ r ∈ st, r.id ≠ rid) → (acceptRide d rid now st).2.1 = st) ∧
    (∀ r ∈ st, r.id = rid →
      { r with driverId := some d, status := .accepted, updatedAt := now }
        ∈ (acceptRide d rid now st).2.1) ∧
    (∀ r ∈ st, r.id ≠ rid → r ∈ (acceptRide d rid now st).2.1) := by
  refine ⟨rfl, rfl, ?_, ?_, ?_⟩
  · intro h
    show acceptUpdate d rid now st = st
    unfold acceptUpdate
    have hcongr : st.map (fun r =>
        if r.id = rid then
          { r with driverId := some d, status := .accepted, updatedAt := now }
        else r) = st.map id := by
      apply List.map_congr_left
      intro a ha
      simp [h a ha]
    rw [hcongr, List.map_id]
  · intro r hr hid
    show _ ∈ acceptUpdate d rid now st
    unfold acceptUpdate
    exact List.mem_map.mpr ⟨r, hr, by simp [hid]⟩
  · intro r hr hid
    show _ ∈ acceptUpdate d rid now st
    unfold acceptUpdate
    exact List.mem_map.mpr ⟨r, hr, by simp [hid]⟩

/-- Claim C1, witness: accepting the requested ride `rideReq1` stores driver 2
on it. -/
theorem C1_witness :
    { rideReq1 with driverId := some 2,
                    status := RideStatus.accepted,
                    updatedAt := 3 } ∈ (acceptRide 2 1 3 [rideReq1]).2.1 :=
  (C1_accept_unconditional 2 1 3 [rideReq1]).2.2.2.1 rideReq1 (by decide) (by decide)

/-- Claim C2: when the geocoder yields no match or a provider error, both
revisions of `POST /api/rides/request` reply with an error, leave the rides
table unchanged, and emit no `ride_requested` event. -/
theorem C2_request_failure_no_side_effect (distFn : Coord → Coord → ℚ)
    (riderId : Nat) (pickup : Coord) (now : Nat) (st : List Ride) (g : GeoResult)
    (h : g = .empty ∨ g = .error) :
    (∃ e, (requestRideV2 distFn riderId pickup g now st).1 = .err e) ∧
    (requestRideV2 distFn riderId pickup g now st).2.1 = st ∧
    (requestRideV2 distFn riderId pickup g now st).2.2 = [] ∧
    (∃ e, (requestRideV1 distFn riderId pickup g now st).1 = .err e) ∧
    (requestRideV1 distFn riderId pickup g now st).2.1 = st ∧
    (requestRideV1 distFn riderId pickup g now st).2.2 = [] := by
  rcases h with rfl | rfl
  · exact ⟨⟨_, rfl⟩, rfl, rfl, ⟨_, rfl⟩, rfl, rfl⟩
  · exact ⟨⟨_, rfl⟩, rfl, rfl, ⟨_, rfl⟩, rfl, rfl⟩

/-- Claim C2, witness: an unresolvable dropoff against the empty store leaves
it empty and emits nothing. -/
theorem C2_witness :
    (requestRideV2 (fun _ _ => 0) 1 ⟨0, 0⟩ .empty 5 []).2.1 = [] ∧
    (requestRideV2 (fun _ _ => 0) 1 ⟨0, 0⟩ .empty 5 []).2.2 = [] :=
  ⟨(C2_request_failure_no_side_effect (fun _ _ => 0) 1 ⟨0, 0⟩ 5 [] .empty
      (Or.inl rfl)).2.1,
   (C2_request_failure_no_side_effect (fun _ _ => 0) 1 ⟨0, 0⟩ 5 [] .empty
      (Or.inl rfl)).2.2.1⟩

/-- Claim C3, counterexample: in the first revision of `POST /api/rides/fare`
(server.js lines 94–105) an empty geocoder match list lands in the generic
catch and is answered 500 "Fare calculation failed" — the same outcome as a
provider error, not the distinct 422. -/
theorem C3_counterexample :
    fareQuoteV1 (fun _ _ => 0) ⟨0, 0⟩ .empty = .err ⟨500, "Fare calculation failed"⟩ ∧
    fareQuoteV1 (fun _ _ => 0) ⟨0, 0⟩ .error = .err ⟨500, "Fare calculation failed"⟩ ∧
    (500 : Nat) ≠ 422 := by
  refine ⟨rfl, rfl, by norm_num⟩

/-- Claim C3 (amended): only the second revision (server.js lines 290–343)
distinguishes the outcomes: an empty match list is answered 422 "Dropoff not
found" and a provider error 500, on both the fare endpoint and the request
endpoint.  In the first (and third) revision the empty match list throws
inside the try block and is answered with the same generic 500 as a provider
error. -/
theorem C3_geo_failure_outcomes (distFn : Coord → Coord → ℚ) (pickup : Coord)
    (riderId now : Nat) (st : List Ride) :
    fareQuoteV2 distFn pickup .empty = .err ⟨422, "Dropoff not found"⟩ ∧
    fareQuoteV2 distFn pickup .error = .err ⟨500, "Fare calculation failed"⟩ ∧
    (requestRideV2 distFn riderId pickup .empty now st).1
      = .err ⟨422, "Dropoff not found"⟩ ∧
    (requestRideV2 distFn riderId pickup .error now st).1
      = .err ⟨500, "Ride request failed"⟩ ∧
    fareQuoteV1 distFn pickup .empty = .err ⟨500, "Fare calculation failed"⟩ ∧
    (requestRideV1 distFn riderId pickup .empty now st).1
      = .err ⟨500, "Ride request failed"⟩ :=
  ⟨rfl, rfl, rfl, rfl, rfl, rfl⟩

/-- Claim C4: on every store reachable by a sequence of request and accept
operations from the empty table, a ride has no driver exactly when its status
is `requested`; one further operation never moves a ride back from
`accepted`; and an insert always creates the ride with status `requested` and
no driver. -/
theorem C4_lifecycle_invariants (ops : List Op) :
    (∀ r ∈ run ops, (r.driverId = none ↔ r.status = .requested)) ∧
    (∀ op, ∀ r ∈ run ops, r.status = .accepted →
      ∀ s ∈ applyOp (run ops) op, s.id = r.id → s.status = .accepted) ∧
    (∀ (riderId : Nat) (pickup dropoff : Coord) (fare : ℚ) (now : Nat)
        (st : List Ride),
      (insertRide riderId pickup dropoff fare now st).1.status = .requested ∧
      (insertRide riderId pickup dropoff fare now st).1.driverId = none) := by
  refine ⟨(storeInv_run ops).1, ?_, ?_⟩
  · intro op r hr hacc s hs hid
    exact accepted_persists (storeInv_run ops) op hr hacc hs hid
  · intro riderId pickup dropoff fare now st
    exact ⟨rfl, rfl⟩

/-- Claim C4, witness: the accepted ride reached by one request and one
accept satisfies the driver/status equivalence. -/
theorem C4_witness :
    rideReqAccept.driverId = none ↔ rideReqAccept.status = RideStatus.requested :=
  (C4_lifecycle_invariants opsReqAccept).1 rideReqAccept (by decide)

/-- Claim C5, counterexample: the first-revision history (server.js lines
140–148, no `ORDER BY`) returns the rides of rider 1 in store (insertion) order —
the older ride first — so the result is not ordered newest `requestedAt`
first. -/
theorem C5_counterexample :
    historyV1 1 (some "rider") [rideOld, rideNew] = [rideOld, rideNew] ∧
    rideOld.requestedAt < rideNew.requestedAt ∧
    ¬ SortedByRequestedAtDesc (historyV1 1 (some "rider") [rideOld, rideNew]) := by
  decide

/-- Claim C5 (amended): every revision filters by `driver_id` when the token
role is exactly `driver` and by `rider_id` otherwise; the second and third
revisions (`ORDER BY requested_at DESC`) additionally return the result
newest-first, but the first revision (lines 140–148) returns the matching
rides in store order with no ordering guarantee. -/
theorem C5_history_filter_and_order (uid : Nat) (role : Option String)
    (st : List Ride) :
    (role = some "driver" →
      ∀ r, r ∈ historyV2 uid role st ↔ r ∈ st ∧ r.driverId = some uid) ∧
    (role ≠ some "driver" →
      ∀ r, r ∈ historyV2 uid role st ↔ r ∈ st ∧ r.riderId = uid) ∧
    SortedByRequestedAtDesc (historyV2 uid role st) ∧
    (role = some "driver" →
      ∀ r, r ∈ historyV1 uid role st ↔ r ∈ st ∧ r.driverId = some uid) ∧
    (role ≠ some "driver" →
      ∀ r, r ∈ historyV1 uid role st ↔ r ∈ st ∧ r.riderId = uid) := by
  refine ⟨?_, ?_, sorted_historyV2 uid role st, ?_, ?_⟩
  · intro h r
    rw [mem_historyV2_iff, h, roleFilter_driver]
    simp
  · intro h r
    rw [mem_historyV2_iff, roleFilter_nondriver h]
    simp
  · intro h r
    rw [mem_historyV1_iff, h, roleFilter_driver]
    simp
  · intro h r
    rw [mem_historyV1_iff, roleFilter_nondriver h]
    simp

/-- Claim C5, witness: with no role claim in the token, the ride of rider 1 is in
the ordered history exactly because it is stored and owned by rider 1. -/
theorem C5_witness :
    rideOld ∈ historyV2 1 none [rideOld] ↔
      rideOld ∈ [rideOld] ∧ rideOld.riderId = 1 :=
  (C5_history_filter_and_order 1 none [rideOld]).2.1 (by decide) rideOld

/-- Claim C6, counterexample: at distance 0 the fare of the booking endpoint is
`(5 + 2*0) * 12 = 60.00`, not the base 5.00 — the ×12 GHS multiplier keeps
the zero-distance fare from equalling the base on the booking endpoint. -/
theorem C6_counterexample :
    bookingFare (0 : ℚ) = 60 ∧ bookingFare (0 : ℚ) ≠ 5 := by
  constructor
  · norm_num [bookingFare, round2, round_eq]
  · norm_num [bookingFare, round2, round_eq]

/-- Claim C6 (amended): both endpoints compute
`(base + perKm*d) * currencyMultiplier` rounded to 2 decimals (multiplier 1
for the quote, 12 for the booking), and on non-negative amounts the rounding
agrees with the round-half-away-from-zero of the spec; at distance 0 — e.g. pickup
`(0,0)` with the dropoff resolving to `(0,0)`, where the haversine distance
is 0 — the fare equals `base * multiplier`: 5.00 on the quote endpoint but
60.00 on the booking endpoint. -/
theorem C6_fare_formula_and_zero_distance :
    (∀ d : ℚ, quoteFare d = round2 ((5 + 2 * d) * 1) ∧
      bookingFare d = round2 ((5 + 2 * d) * 12)) ∧
    (∀ x : ℚ, 0 ≤ x → round2 x = round2SpecHalfAway x) ∧
    quoteFare (haversineDistance 0 0 0 0 : ℝ) = 5 ∧
    bookingFare (haversineDistance 0 0 0 0 : ℝ) = 60 := by
  refine ⟨?_, ?_, ?_, ?_⟩
  · intro d
    constructor
    · simp [quoteFare]
    · rfl
  · intro x hx
    exact round2_eq_spec_of_nonneg hx
  · rw [haversineDistance_self]
    norm_num [quoteFare, round2, round_eq]
  · rw [haversineDistance_self]
    norm_num [bookingFare, round2, round_eq]

/-- Claim C6, witness: at the tie point 0.005 the implemented rounding and
the half-away-from-zero rounding of the spec agree. -/
theorem C6_witness :
    round2 (1 / 200 : ℚ) = round2SpecHalfAway (1 / 200 : ℚ) :=
  C6_fare_formula_and_zero_distance.2.1 (1 / 200) (by norm_num)

/-- Claim C7, counterexample: a negative distance is not rejected — the quote
formula happily returns `5 + 2*(-1) = 3.00` and the booking formula `36.00`;
no `InvalidInput` failure exists anywhere in the computation. -/
theorem C7_counterexample :
    quoteFare (-1 : ℚ) = 3 ∧ bookingFare (-1 : ℚ) = 36 := by
  constructor
  · norm_num [quoteFare, round2, round_eq]
  · norm_num [bookingFare, round2, round_eq]

/-- Claim C7 (amended): the inline fare computation is a pure total function
of the distance: it never fails and performs no validation.  For every
non-negative distance it returns at least the (multiplied) base fare, and for
negative distances it silently returns `base + perKm*d` scaled instead of
signalling `InvalidInput`. -/
theorem C7_fare_total_no_invalid_input :
    (∀ d : ℚ, 0 ≤ d → 5 ≤ quoteFare d ∧ 60 ≤ bookingFare d) ∧
    quoteFare (-1 : ℚ) = 3 ∧ bookingFare (-1 : ℚ) = 36 := by
  refine ⟨?_, ?_, ?_⟩
  · intro d hd
    constructor
    · have h5 : round2 (5 : ℚ) = 5 := by norm_num [round2, round_eq]
      have := round2_mono (show (5 : ℚ) ≤ 5 + 2 * d by linarith)
      calc (5 : ℚ) = round2 (5 : ℚ) := h5.symm
        _ ≤ round2 (5 + 2 * d) := this
        _ = quoteFare d := rfl
    · have h60 : round2 (60 : ℚ) = 60 := by norm_num [round2, round_eq]
      have := round2_mono (show (60 : ℚ) ≤ (5 + 2 * d) * 12 by linarith)
      calc (60 : ℚ) = round2 (60 : ℚ) := h60.symm
        _ ≤ round2 ((5 + 2 * d) * 12) := this
        _ = bookingFare d := rfl
  · norm_num [quoteFare, round2, round_eq]
  · norm_num [bookingFare, round2, round_eq]

/-- Claim C7, witness: at distance 2 both fares are at least the scaled
base. -/
theorem C7_witness : 5 ≤ quoteFare (2 : ℚ) ∧ 60 ≤ bookingFare (2 : ℚ) :=
  C7_fare_total_no_invalid_input.1 2 (by norm_num)

/-- Claim C8, counterexample: the two distinct in-range coordinates
`(lon 0, lat 90)` and `(lon 10, lat 90)` — both at the north pole — have
haversine distance exactly 0, so `distance(a,b) = 0` does not imply
`a = b`. -/
theorem C8_counterexample :
    ((-90 : ℝ) ≤ 90 ∧ (90 : ℝ) ≤ 90) ∧
    ((-180 : ℝ) ≤ 0 ∧ (0 : ℝ) ≤ 180) ∧
    ((-180 : ℝ) ≤ 10 ∧ (10 : ℝ) ≤ 180) ∧
    haversineDistance 0 90 10 90 = 0 ∧ (0 : ℝ) ≠ 10 := by
  refine ⟨⟨by norm_num, le_refl _⟩, ⟨by norm_num, by norm_num⟩,
    ⟨by norm_num, by norm_num⟩, haversineDistance_pole, by norm_num⟩

/-- Claim C8 (amended): the haversine distance is symmetric for all
coordinates and vanishes on equal coordinates; the converse fails (distinct
points at a pole, or 180 and −180 longitude, are at distance 0). -/
theorem C8_distance_symm_and_zero_on_diagonal :
    (∀ lon1 lat1 lon2 lat2 : ℝ,
      haversineDistance lon1 lat1 lon2 lat2 = haversineDistance lon2 lat2 lon1 lat1) ∧
    (∀ lon lat : ℝ, haversineDistance lon lat lon lat = 0) :=
  ⟨haversineDistance_symm, haversineDistance_self⟩

/-- Claim C9: for each pricing configuration occurring in the source (quote:
base 5, perKm 2, multiplier 1; booking: base 5, perKm 2, multiplier 12), the
estimate is monotonically non-decreasing in the distance. -/
theorem C9_estimate_monotone (p : PricingModel) (hp : 0 ≤ p.perKm)
    (d1 d2 : ℚ) (hd : d1 ≤ d2) : estimate p d1 ≤ estimate p d2 := by
  unfold estimate
  apply round2_mono
  cases p
  · simp only [PricingModel.base, PricingModel.perKm, PricingModel.currencyMultiplier]
    linarith
  · simp only [PricingModel.base, PricingModel.perKm, PricingModel.currencyMultiplier]
    linarith

/-- Claim C9, witness: the booking estimate at distance 0 is at most the one
at distance 1. -/
theorem C9_witness : estimate .booking 0 ≤ estimate .booking 1 :=
  C9_estimate_monotone .booking (by norm_num [PricingModel.perKm]) 0 1 (by norm_num)

/-- Claim C10: any token role other than exactly `driver` — a different
string or an absent role claim — makes history filter by the `rider_id`
column, in both the unordered and the ordered revision. -/
theorem C10_nondriver_roles_use_rider_column (uid : Nat) (role : Option String)
    (st : List Ride) (h : role ≠ some "driver") :
    (∀ r, r ∈ historyV1 uid role st ↔ r ∈ st ∧ r.riderId = uid) ∧
    (∀ r, r ∈ historyV2 uid role st ↔ r ∈ st ∧ r.riderId = uid) := by
  constructor
  · intro r
    rw [mem_historyV1_iff, roleFilter_nondriver h]
    simp
  · intro r
    rw [mem_historyV2_iff, roleFilter_nondriver h]
    simp

/-- Claim C10, witness: a token with role `passenger` filters the ride of rider 1
by `rider_id`. -/
theorem C10_witness :
    rideOld ∈ historyV1 1 (some "passenger") [rideOld] ↔
      rideOld ∈ [rideOld] ∧ rideOld.riderId = 1 :=
  (C10_nondriver_roles_use_rider_column 1 (some "passenger") [rideOld]
    (by decide)).1 rideOld

end SafeRide
